import Mathlib

/-!
Shallow embedding of the signal-aggregation / position-lifecycle / risk-sizing /
resilience core of the trading-bot repository, together with proofs settling the
frozen claims about it.

Conventions of the embedding:
* JavaScript numbers are modelled as rationals; machine time stamps as naturals.
* Fallible upstream calls (price fetch, swap execution) are modelled as
  `Except Unit` values supplied by the environment: `Except.error ()` stands for
  a thrown exception, `Except.ok v` for a call that returned `v`.
* Mutable class state is passed explicitly; each method becomes a pure function
  from the old state (plus the outcomes of its upstream calls) to the new state.
-/

namespace Crypto

/-! ## Circuit breaker (src/services/api.ts, lines 79-153)

The source keeps one record per upstream source in `circuitStates`:
`{ failures, lastFailure, state: 'closed' | 'open' | 'half-open', attempts }`;
thresholds come from the `CIRCUIT_BREAKER` constant. The constructor for the
source's `'open'` state is called `opened` here because `open` is reserved. -/

inductive CBState
  | closed
  | opened
  | halfOpen
deriving DecidableEq, Repr

structure CircuitState where
  failures : Nat
  lastFailure : Nat
  state : CBState
  attempts : Nat
deriving DecidableEq, Repr

/-- CIRCUIT_BREAKER.failureThreshold -/
def failureThreshold : Nat := 3

/-- CIRCUIT_BREAKER.resetTimeout (5 minutes, in ms) -/
def resetTimeout : Nat := 300000

/-- CIRCUIT_BREAKER.halfOpenMaxAttempts -/
def halfOpenMaxAttempts : Nat := 2

/-- `checkCircuitBreaker` (api.ts lines 112-131): returns whether the request
may proceed, together with the updated breaker state. `now` is `Date.now()`.
`now - lastFailure` uses truncated subtraction, which agrees with the source
whenever `now` is at or after the last failure. -/
def checkCircuitBreaker (c : CircuitState) (now : Nat) : Bool × CircuitState :=
  if c.state = CBState.opened then
    if resetTimeout ≤ now - c.lastFailure then
      let c1 : CircuitState := { c with state := CBState.halfOpen, attempts := 0 }
      if c1.state = CBState.halfOpen ∧ halfOpenMaxAttempts ≤ c1.attempts then
        (false, { c1 with state := CBState.opened })
      else
        (true, c1)
    else
      (false, c)
  else
    if c.state = CBState.halfOpen ∧ halfOpenMaxAttempts ≤ c.attempts then
      (false, { c with state := CBState.opened })
    else
      (true, c)

/-- `recordApiResult` (api.ts lines 133-153). `now` is `Date.now()` at the
moment a failure is recorded. -/
def recordApiResult (c : CircuitState) (success : Bool) (now : Nat) : CircuitState :=
  if success then
    let c1 : CircuitState :=
      if c.state = CBState.halfOpen then { c with state := CBState.closed } else c
    { c1 with failures := 0, attempts := 0 }
  else
    let c1 : CircuitState := { c with failures := c.failures + 1, lastFailure := now }
    let c2 : CircuitState :=
      if c1.state = CBState.halfOpen then { c1 with attempts := c1.attempts + 1 } else c1
    if failureThreshold ≤ c2.failures then { c2 with state := CBState.opened } else c2

/-! ## Volatility-adjusted position sizer
(src/services/trading/volatility/positionSizer.ts) -/

inductive Regime
  | low
  | medium
  | high
  | extreme
deriving DecidableEq, Repr

/-- `ForecastResult` from positionSizer.ts. The source also carries a
`metrics` sub-record; `calculatePositionSize` never reads it, so it is
omitted here. -/
structure ForecastResult where
  regime : Regime
  predictedVolatility : ℚ
  currentVolatility : ℚ
deriving DecidableEq, Repr

structure ConfidenceMultipliers where
  low : ℚ
  medium : ℚ
  high : ℚ
deriving DecidableEq, Repr

structure PositionSizeConfig where
  baseSize : ℚ
  maxSize : ℚ
  accountSize : ℚ
  riskPerTrade : ℚ
  confidenceMultipliers : ConfidenceMultipliers
deriving DecidableEq, Repr

/-- `VOLATILITY_ADJUSTMENTS` table of the sizer class. -/
def VOLATILITY_ADJUSTMENTS : Regime → ℚ
  | Regime.low => 6/5
  | Regime.medium => 1
  | Regime.high => 7/10
  | Regime.extreme => 1/2

/-- `getConfidenceMultiplier` (positionSizer.ts lines 102-106). -/
def getConfidenceMultiplier (cfg : PositionSizeConfig) (confidence : ℚ) : ℚ :=
  if 4/5 ≤ confidence then cfg.confidenceMultipliers.high
  else if 3/5 ≤ confidence then cfg.confidenceMultipliers.medium
  else cfg.confidenceMultipliers.low

/-- `applyStrategyAdjustments` (positionSizer.ts lines 108-134); the
`reasoning` log strings are dropped, the sizing arithmetic is kept. -/
def applyStrategyAdjustments (size : ℚ) (strategy : String) : ℚ :=
  if strategy.toLower = "trend" then size * (6/5)
  else if strategy.toLower = "momentum" then size * (11/10)
  else if strategy.toLower = "mean_reversion" then size * (9/10)
  else if strategy.toLower = "arbitrage" then size * (3/2)
  else size

structure SizeParams where
  volatilityForecast : ForecastResult
  confidence : ℚ
  price : ℚ
  strategy : String
deriving DecidableEq, Repr

structure SizeResult where
  size : ℚ
  adjustedRisk : ℚ
deriving DecidableEq, Repr

/-- `calculatePositionSize` (positionSizer.ts lines 37-100), minus the
`reasoning` strings. The risk cap divides by `currentVolatility / 100`; in the
source a zero divisor produces `Infinity`, which leaves `size` unchanged under
`Math.min`, so that case is written out explicitly here. -/
def calculatePositionSize (cfg : PositionSizeConfig) (params : SizeParams) : SizeResult :=
  let size := cfg.baseSize
  let size := size * VOLATILITY_ADJUSTMENTS params.volatilityForecast.regime
  let size := size * getConfidenceMultiplier cfg params.confidence
  let size :=
    if params.volatilityForecast.currentVolatility < params.volatilityForecast.predictedVolatility then
      let volReduction :=
        1 - (params.volatilityForecast.predictedVolatility - params.volatilityForecast.currentVolatility)
      size * max (1/2) volReduction
    else size
  let size := applyStrategyAdjustments size params.strategy
  let riskAmount := cfg.accountSize * (cfg.riskPerTrade / 100)
  let size :=
    if params.volatilityForecast.currentVolatility = 0 then size
    else min size (riskAmount / (params.volatilityForecast.currentVolatility / 100))
  let size := min size cfg.maxSize
  { size := size, adjustedRisk := size / cfg.accountSize * 100 }

/-- Concrete sizing configuration for witnesses, with the multipliers of
`productionConfig.trading` (config.ts) and a 10000 account. -/
def exampleSizeConfig : PositionSizeConfig :=
  { baseSize := 20
    maxSize := 50
    accountSize := 10000
    riskPerTrade := 2
    confidenceMultipliers := { low := 2/5, medium := 3/5, high := 1 } }

/-- Concrete sizing call matching the spec example: confidence 0.85 in a high
volatility regime. -/
def exampleSizeParams : SizeParams :=
  { volatilityForecast :=
      { regime := Regime.high, predictedVolatility := 1/2, currentVolatility := 5 }
    confidence := 17/20
    price := 100
    strategy := "trend" }

/-! ## Signal aggregator (src/services/trading/signalEvaluator.ts) -/

/-- `TradeSignal` (types/crypto.ts), restricted to the fields the aggregator
and the engine read. -/
structure TradeSignal where
  symbol : String
  side : String
  confidence : ℚ
  strategy : String
  reason : String
  timestamp : Nat
  momentum : Option ℚ
deriving DecidableEq, Repr

/-- `MAX_SIGNALS_PER_STRATEGY` of `SignalAggregator`. -/
def MAX_SIGNALS_PER_STRATEGY : Nat := 3

/-- The per-signal clamp of `filterAndRankSignals`:
`confidence >= 0.10 ? confidence : 0.10`. -/
def clampConfidence (s : TradeSignal) : TradeSignal :=
  { s with confidence := if 1/10 ≤ s.confidence then s.confidence else 1/10 }

/-- The comparator score `(confidence * 0.5) + ((momentum or 0) * 0.5)`. -/
def signalScore (s : TradeSignal) : ℚ :=
  s.confidence * (1/2) + (s.momentum.getD 0) * (1/2)

/-- The descending stable sort of `filterAndRankSignals`
(`sort((a, b) => scoreB - scoreA)`). -/
def sortByScore (l : List TradeSignal) : List TradeSignal :=
  l.mergeSort (fun a b => decide (signalScore b ≤ signalScore a))

/-- One iteration of the per-strategy loop of `filterAndRankSignals`
(signalEvaluator.ts lines 128-166). `openPositions` holds the symbols of the
stored positions whose status is `'open'` (the `storage.load('positions')`
lookup is an external input of the loop body). -/
def filterGroup (openPositions : List String) (strategy : String)
    (signals : List TradeSignal) : List TradeSignal :=
  if strategy = "whale" then
    signals.filter (fun s => decide ((7/10 : ℚ) < s.confidence))
  else
    let validSignals := signals.map clampConfidence
    let validSignals := validSignals.filter (fun s => !openPositions.contains s.symbol)
    let sorted := sortByScore validSignals
    let maxSignals :=
      if strategy = "social" ∨ strategy = "pump" then MAX_SIGNALS_PER_STRATEGY * 2
      else MAX_SIGNALS_PER_STRATEGY
    sorted.take maxSignals

/-- `filterAndRankSignals` over the grouped map, represented as an association
list from strategy name to that group's signals. -/
def filterAndRankSignals (grouped : List (String × List TradeSignal))
    (openPositions : List String) : List (String × List TradeSignal) :=
  grouped.map (fun g => (g.1, filterGroup openPositions g.1 g.2))

/-! ## Position lifecycle engine (src/services/trading/arbitrage/index.ts,
class TradingBot) -/

inductive SwapStatus
  | success
  | failed
deriving DecidableEq, Repr

/-- Outcome of a `jupiter.swap` call that returned without throwing. -/
structure SwapResult where
  status : SwapStatus
  amountOut : ℚ
deriving DecidableEq, Repr

structure TakeProfitLevel where
  price : ℚ
  size : ℚ
  hit : Bool
deriving DecidableEq, Repr

structure TakeProfitLevels where
  level1 : TakeProfitLevel
  level2 : TakeProfitLevel
deriving DecidableEq, Repr

structure TrailingStop where
  active : Bool
  highestPrice : ℚ
  currentStop : ℚ
  callback : ℚ
deriving DecidableEq, Repr

/-- `Position` (types/crypto.ts lines 358-390), restricted to the fields the
`TradingBot` engine reads or writes; `tokenMint` is kept as its string form
and `openedAt` as a millisecond timestamp. -/
structure Position where
  symbol : String
  tokenMint : String
  entryPrice : ℚ
  quantity : ℚ
  remainingQuantity : ℚ
  stopLoss : ℚ
  takeProfitLevels : TakeProfitLevels
  trailingStop : TrailingStop
  status : String
  strategy : String
  confidence : ℚ
  openedAt : Nat
deriving DecidableEq, Repr

/-- `config.sidewaysProtection` (config.ts). -/
structure SidewaysProtectionConfig where
  maxHoldingTime : ℚ
  priceRangeThreshold : ℚ
  volumeDeclineThreshold : ℚ
  minimumProgress : ℚ
  reallocateAfter : ℚ
deriving DecidableEq, Repr

/-- One entry of `config.trading.takeProfitLevels`. -/
structure TakeProfitLevelConfig where
  percent : ℚ
  size : ℚ
deriving DecidableEq, Repr

/-- The parts of `config.trading` the engine reads on entry and in the
monitoring tick. -/
structure TradingConfig where
  baseSize : ℚ
  maxSize : ℚ
  accountRiskPerTrade : ℚ
  stopLossInitial : ℚ
  trailingCallback : ℚ
  takeProfit0 : TakeProfitLevelConfig
  takeProfit1 : TakeProfitLevelConfig
  volumeDecline : ℚ
deriving DecidableEq, Repr

structure BotConfig where
  sidewaysProtection : SidewaysProtectionConfig
  trading : TradingConfig
deriving DecidableEq, Repr

/-- The market observations one `updatePosition` tick makes through its
upstream calls, assuming they all return: the cached market price, the
position age, the two `calculateRVOL(...).volumeSpikes.oneHour` reads (the
source calls the analyzer twice in one tick), the `getPriceRange` result and
the whale-distribution flag. -/
structure TickData where
  currentPrice : ℚ
  positionAge : ℚ
  rvolOneHourSideways : ℚ
  priceRange : ℚ
  whaleDistribution : Bool
  rvolOneHourExit : ℚ
deriving DecidableEq, Repr

/-- Tag distinguishing which take-profit tier a monitoring-tick sell belongs
to. -/
inductive SellTag
  | tp1
  | tp2
deriving DecidableEq, Repr

/-- Result of one monitoring tick on one position: the mutated position, the
`executeSell` orders issued (tier tag and amount), and the exit reason passed
to `exitPosition` when the tick decided to exit. -/
structure TickResult where
  position : Position
  sells : List (SellTag × ℚ)
  exitReason : Option String
deriving DecidableEq, Repr

/-- The trailing-stop ratchet at the top of the `trailingStop.active` block
(index.ts lines 702-706). -/
def applyTrailingUpdate (currentPrice : ℚ) (pos : Position) : Position :=
  if pos.trailingStop.active = true ∧ pos.trailingStop.highestPrice < currentPrice then
    { pos with trailingStop :=
        { pos.trailingStop with
            highestPrice := currentPrice
            currentStop := currentPrice * (1 - pos.trailingStop.callback / 100) } }
  else pos

/-- The level-1 take-profit block (index.ts lines 718-723): when the tier has
not been hit and the price has crossed it, sell `quantity * size`, decrement
`remainingQuantity`, and mark the tier hit. The returned status of the sell is
never read by the source, so it does not appear here. -/
def hitLevel1 (currentPrice : ℚ) (pos : Position) : Position × List (SellTag × ℚ) :=
  if pos.takeProfitLevels.level1.hit = false ∧ pos.takeProfitLevels.level1.price ≤ currentPrice then
    let sellAmount := pos.quantity * pos.takeProfitLevels.level1.size
    ({ pos with
        remainingQuantity := pos.remainingQuantity - sellAmount
        takeProfitLevels :=
          { pos.takeProfitLevels with
              level1 := { pos.takeProfitLevels.level1 with hit := true } } },
     [(SellTag.tp1, sellAmount)])
  else (pos, [])

/-- The level-2 take-profit block (index.ts lines 725-734), which additionally
activates the trailing stop at the current price. -/
def hitLevel2 (currentPrice : ℚ) (pos : Position) : Position × List (SellTag × ℚ) :=
  if pos.takeProfitLevels.level2.hit = false ∧ pos.takeProfitLevels.level2.price ≤ currentPrice then
    let sellAmount := pos.quantity * pos.takeProfitLevels.level2.size
    ({ pos with
        remainingQuantity := pos.remainingQuantity - sellAmount
        takeProfitLevels :=
          { pos.takeProfitLevels with
              level2 := { pos.takeProfitLevels.level2 with hit := true } }
        trailingStop :=
          { active := true
            highestPrice := currentPrice
            currentStop := currentPrice * (1 - pos.trailingStop.callback / 100)
            callback := pos.trailingStop.callback } },
     [(SellTag.tp2, sellAmount)])
  else (pos, [])

/-- The take-profit phase of the tick: level 1 then level 2, accumulating the
issued sells in program order. -/
def tpPhase (currentPrice : ℚ) (pos : Position) : Position × List (SellTag × ℚ) :=
  ((hitLevel2 currentPrice (hitLevel1 currentPrice pos).1).1,
   (hitLevel1 currentPrice pos).2 ++ (hitLevel2 currentPrice (hitLevel1 currentPrice pos).1).2)

/-- `updatePosition` (index.ts lines 671-744) for one tick whose upstream
calls all return, as a pure transition. The exit triggers are evaluated in
source order: sideways timeout, sideways reallocation, whale distribution
under an active trailing stop, trailing stop, static stop loss, the two
take-profit tiers, then the volume-decline exit. `sellStatus1`/`sellStatus2`
are the statuses returned by the tier sells; the source binds them to
`sellResult` and never inspects them. -/
def updatePositionTick (cfg : BotConfig) (t : TickData)
    (sellStatus1 sellStatus2 : SwapStatus) (pos : Position) : TickResult :=
  if cfg.sidewaysProtection.maxHoldingTime < t.positionAge ∧
     |(t.currentPrice - pos.entryPrice) / pos.entryPrice * 100| <
       cfg.sidewaysProtection.minimumProgress then
    { position := pos, sells := [], exitReason := some "sideways_timeout" }
  else if cfg.sidewaysProtection.reallocateAfter < t.positionAge ∧
          t.rvolOneHourSideways < 1 - cfg.sidewaysProtection.volumeDeclineThreshold / 100 ∧
          t.priceRange < cfg.sidewaysProtection.priceRangeThreshold then
    { position := pos, sells := [], exitReason := some "sideways_detected" }
  else if t.whaleDistribution = true ∧ pos.trailingStop.active = true then
    { position := pos, sells := [], exitReason := some "whale_distribution" }
  else
    if (applyTrailingUpdate t.currentPrice pos).trailingStop.active = true ∧
       t.currentPrice ≤ (applyTrailingUpdate t.currentPrice pos).trailingStop.currentStop then
      { position := applyTrailingUpdate t.currentPrice pos, sells := [],
        exitReason := some "trailing_stop" }
    else if t.currentPrice ≤ (applyTrailingUpdate t.currentPrice pos).stopLoss then
      { position := applyTrailingUpdate t.currentPrice pos, sells := [],
        exitReason := some "stop_loss" }
    else if t.rvolOneHourExit < 1 - cfg.trading.volumeDecline / 100 then
      { position := (tpPhase t.currentPrice (applyTrailingUpdate t.currentPrice pos)).1,
        sells := (tpPhase t.currentPrice (applyTrailingUpdate t.currentPrice pos)).2,
        exitReason := some "volume_decline" }
    else
      { position := (tpPhase t.currentPrice (applyTrailingUpdate t.currentPrice pos)).1,
        sells := (tpPhase t.currentPrice (applyTrailingUpdate t.currentPrice pos)).2,
        exitReason := none }

/-! ### Exit path, aggregate stats, entry path, shutdown -/

/-- The mutable `dailyStats` record of `TradingBot`. -/
structure DailyStats where
  trades : Nat
  wins : Nat
  pnl : ℚ
  bestTrade : ℚ
  worstTrade : ℚ
deriving DecidableEq, Repr

/-- The running aggregate counters of `TradingBot`. -/
structure BotStats where
  totalPnL : ℚ
  winningTrades : Nat
  totalTrades : Nat
  dailyStats : DailyStats
deriving DecidableEq, Repr

/-- The record passed to `storeTradeRecord` on a full exit (`holdingTime` is a
formatted duration string and is omitted). -/
structure TradeRecord where
  symbol : String
  entryPrice : ℚ
  exitPrice : ℚ
  pnl : ℚ
  reason : String
  roi : ℚ
deriving DecidableEq, Repr

/-- The PnL/stats block of `exitPosition` (index.ts lines 760-803): computes
`pnl = (currentPrice - entryPrice) * remainingQuantity * currentPrice` and
`roi`, folds them into the aggregate stats, and builds the trade record. -/
def exitPositionStats (symbol : String) (pos : Position) (currentPrice : ℚ)
    (reason : String) (stats : BotStats) : BotStats × TradeRecord :=
  let pnl := (currentPrice - pos.entryPrice) * pos.remainingQuantity * currentPrice
  let roi := (currentPrice - pos.entryPrice) / pos.entryPrice * 100
  let d := stats.dailyStats
  let d : DailyStats :=
    { trades := d.trades + 1
      wins := if 0 < pnl then d.wins + 1 else d.wins
      pnl := d.pnl + pnl
      bestTrade := max d.bestTrade pnl
      worstTrade := min d.worstTrade pnl }
  let stats : BotStats :=
    { totalPnL := stats.totalPnL + pnl
      winningTrades := if 0 < pnl then stats.winningTrades + 1 else stats.winningTrades
      totalTrades := stats.totalTrades + 1
      dailyStats := d }
  (stats,
   { symbol := symbol
     entryPrice := pos.entryPrice
     exitPrice := currentPrice
     pnl := pnl
     reason := reason
     roi := roi })

/-- Result of one `exitPosition` call. -/
structure ExitRunResult where
  positions : List (String × Position)
  stats : BotStats
  record : Option TradeRecord
  removed : Bool
deriving DecidableEq, Repr

/-- `exitPosition` (index.ts lines 746-810) over the live position table
(an association list keyed by symbol, mirroring the `positions` map).
`priceResult` is the outcome of the `getCachedMarketPrice` call and
`sellOutcome` that of the exit `jupiter.swap` call; a thrown exception in
either lands in the catch block, which only logs — the stats stay unchanged,
no record is stored and the symbol is NOT deleted. When the swap returns, its
`status` field is never read: the stats update, the record store and the
`positions.delete(symbol)` all run unconditionally. -/
def exitPositionRun (positions : List (String × Position)) (symbol : String)
    (pos : Position) (reason : String) (priceResult : Except Unit ℚ)
    (sellOutcome : Except Unit SwapResult) (stats : BotStats) : ExitRunResult :=
  match priceResult with
  | Except.error _ => { positions := positions, stats := stats, record := none, removed := false }
  | Except.ok currentPrice =>
    match sellOutcome with
    | Except.error _ => { positions := positions, stats := stats, record := none, removed := false }
    | Except.ok _sellResult =>
      let r := exitPositionStats symbol pos currentPrice reason stats
      { positions := positions.filter (fun e => !(e.1 == symbol))
        stats := r.1
        record := some r.2
        removed := true }

/-- The engine state shared across the loops: the live position table and the
run/shutdown flags. -/
structure BotState where
  positions : List (String × Position)
  isRunning : Bool
  shutdownRequested : Bool
deriving DecidableEq, Repr

/-- `liquidityAnalyzer.analyzeLiquidity` result, restricted to the fields
`evaluateSignal` reads. -/
structure LiquidityAnalysis where
  isSafe : Bool
  reason : String
deriving DecidableEq, Repr

/-- Outcomes of the upstream calls one `evaluateSignal` run makes: liquidity
analysis, whale metrics (`signals.distribution`), cached market price, and the
entry `jupiter.swap`. -/
structure EvalEnv where
  liquidity : Except Unit LiquidityAnalysis
  whaleDistribution : Except Unit Bool
  price : Except Unit ℚ
  swap : Except Unit SwapResult

/-- The `Position` object built on a successful entry swap
(index.ts lines 629-658). -/
def newPosition (cfg : BotConfig) (signal : TradeSignal) (price : ℚ)
    (amountOut : ℚ) (now : Nat) : Position :=
  { symbol := signal.symbol
    tokenMint := signal.symbol
    entryPrice := price
    quantity := amountOut
    remainingQuantity := amountOut
    stopLoss := price * (1 - cfg.trading.stopLossInitial / 100)
    takeProfitLevels :=
      { level1 :=
          { price := price * (1 + cfg.trading.takeProfit0.percent / 100)
            size := cfg.trading.takeProfit0.size
            hit := false }
        level2 :=
          { price := price * (1 + cfg.trading.takeProfit1.percent / 100)
            size := cfg.trading.takeProfit1.size
            hit := false } }
    trailingStop :=
      { active := false
        highestPrice := price
        currentStop := 0
        callback := cfg.trading.trailingCallback }
    status := "open"
    strategy := signal.strategy
    confidence := signal.confidence
    openedAt := now }

/-- `evaluateSignal` (index.ts lines 598-669) as a transition on the engine
state. The source returns early when the symbol already has a position, when
the liquidity analysis is unsafe, or when whale distribution is flagged; any
thrown upstream error lands in the catch block, which only logs. A position is
inserted exactly when the entry swap returns with status `'success'`. Note
that neither `shutdownRequested` nor `isRunning` is consulted anywhere in the
source of this method. -/
def evaluateSignal (cfg : BotConfig) (st : BotState) (signal : TradeSignal)
    (env : EvalEnv) (now : Nat) : BotState :=
  if (st.positions.lookup signal.symbol).isSome then st
  else
    match env.liquidity, env.whaleDistribution, env.price with
    | Except.ok liq, Except.ok whaleDist, Except.ok price =>
      if liq.isSafe = false then st
      else if whaleDist = true then st
      else
        match env.swap with
        | Except.ok tradeResult =>
          if tradeResult.status = SwapStatus.success then
            { st with positions :=
                (signal.symbol, newPosition cfg signal price tradeResult.amountOut now) ::
                  st.positions }
          else st
        | Except.error _ => st
    | _, _, _ => st

/-- Externally visible events of one `stop()` call, in order: the
per-position `exitPosition(symbol, position, 'bot_shutdown')` calls, then the
final status write that reports the bot stopped. -/
inductive StopEvent
  | exitAttempt (symbol : String) (reason : String)
  | reportStopped
deriving DecidableEq, Repr

/-- Outcomes of the upstream calls of one exit attempt during shutdown. -/
structure ExitEnv where
  price : Except Unit ℚ
  sell : Except Unit SwapResult

/-- One iteration of the `stop()` loop over `positions.entries()`. -/
def stopFold (env : String → ExitEnv)
    (acc : List (String × Position) × BotStats × List StopEvent)
    (entry : String × Position) :
    List (String × Position) × BotStats × List StopEvent :=
  let r := exitPositionRun acc.1 entry.1 entry.2 "bot_shutdown"
             (env entry.1).price (env entry.1).sell acc.2.1
  (r.positions, r.stats, acc.2.2 ++ [StopEvent.exitAttempt entry.1 "bot_shutdown"])

/-- `stop()` (index.ts lines 406-428): set the shutdown flag and clear
`isRunning`, attempt an exit with reason `'bot_shutdown'` for every entry of
the position table (each attempt's errors are caught and logged), and only
then write the stopped status. -/
def stop (st : BotState) (stats : BotStats) (env : String → ExitEnv) :
    BotState × BotStats × List StopEvent :=
  let folded := st.positions.foldl (stopFold env) (st.positions, stats, [])
  ({ positions := folded.1, isRunning := false, shutdownRequested := true },
   folded.2.1,
   folded.2.2 ++ [StopEvent.reportStopped])

/-! ### Concrete instances used by witnesses and counterexamples -/

/-- The `productionConfig` values of config.ts restricted to the embedded
fields (sideways protection, initial stop, trailing callback, first two
take-profit tiers, volume-decline exit trigger). -/
def exampleBotConfig : BotConfig :=
  { sidewaysProtection :=
      { maxHoldingTime := 1800000
        priceRangeThreshold := 2
        volumeDeclineThreshold := 30
        minimumProgress := 5
        reallocateAfter := 900000 }
    trading :=
      { baseSize := 20
        maxSize := 50
        accountRiskPerTrade := 2
        stopLossInitial := 5
        trailingCallback := 5
        takeProfit0 := { percent := 15, size := 3/10 }
        takeProfit1 := { percent := 30, size := 3/10 }
        volumeDecline := 40 } }

/-- A live position entered at price 100 with 2 units. -/
def examplePosition : Position :=
  { symbol := "SOL"
    tokenMint := "SOL"
    entryPrice := 100
    quantity := 2
    remainingQuantity := 2
    stopLoss := 95
    takeProfitLevels :=
      { level1 := { price := 115, size := 3/10, hit := false }
        level2 := { price := 130, size := 3/10, hit := false } }
    trailingStop := { active := false, highestPrice := 100, currentStop := 0, callback := 5 }
    status := "open"
    strategy := "trend"
    confidence := 4/5
    openedAt := 0 }

/-- Fresh aggregate stats. -/
def exampleStats : BotStats :=
  { totalPnL := 0
    winningTrades := 0
    totalTrades := 0
    dailyStats := { trades := 0, wins := 0, pnl := 0, bestTrade := 0, worstTrade := 0 } }

/-- A signal for a symbol with no open position. -/
def exampleSignal : TradeSignal :=
  { symbol := "NEW"
    side := "long"
    confidence := 9/10
    strategy := "trend"
    reason := "breakout"
    timestamp := 0
    momentum := none }

/-- An environment in which every pre-entry check passes and the entry swap
succeeds. -/
def successEvalEnv : EvalEnv :=
  { liquidity := Except.ok { isSafe := true, reason := "" }
    whaleDistribution := Except.ok false
    price := Except.ok 100
    swap := Except.ok { status := SwapStatus.success, amountOut := 50 } }

/-- A low-confidence whale-strategy signal. -/
def whaleSignal : TradeSignal :=
  { symbol := "ABC"
    side := "long"
    confidence := 1/2
    strategy := "whale"
    reason := "whale inflow"
    timestamp := 0
    momentum := none }

/-- An environment in which the entry swap completes but reports failure. -/
def failedSwapEnv : EvalEnv :=
  { liquidity := Except.ok { isSafe := true, reason := "" }
    whaleDistribution := Except.ok false
    price := Except.ok 100
    swap := Except.ok { status := SwapStatus.failed, amountOut := 0 } }

/-- A shutdown-exit environment in which every exit sell succeeds. -/
def exampleExitEnv : String → ExitEnv :=
  fun _ =>
    { price := Except.ok 100
      sell := Except.ok { status := SwapStatus.success, amountOut := 100 } }

/-- The engine state right after `stop()` on a running bot with no open
positions. -/
def stoppedState : BotState :=
  (stop { positions := [], isRunning := true, shutdownRequested := false }
    exampleStats exampleExitEnv).1

/-- A monitoring-tick observation at price 116: above the first tier of
`examplePosition`, below the second, above the stop loss, with healthy
volume, a young position, and no whale distribution. -/
def exampleTick : TickData :=
  { currentPrice := 116
    positionAge := 0
    rvolOneHourSideways := 1
    priceRange := 10
    whaleDistribution := false
    rvolOneHourExit := 1 }

/-- A monitoring-tick observation at price 131, above both take-profit
tiers of `examplePosition`. -/
def exampleTickBoth : TickData :=
  { currentPrice := 131
    positionAge := 0
    rvolOneHourSideways := 1
    priceRange := 10
    whaleDistribution := false
    rvolOneHourExit := 1 }

/-! ## Theorems -/

/-- Claim C4: with failureThreshold 3, three consecutive recorded failures
move a closed breaker to open; while open a request is rejected (no upstream
call) until resetTimeout has elapsed since the last failure, after which the
state becomes half-open; the first recorded success in half-open closes the
breaker; and reaching halfOpenMaxAttempts attempts in half-open without a
success moves it back to open. -/
theorem circuit_breaker_transitions (c : CircuitState) (t1 t2 t3 now : Nat) :
    (c.state = CBState.closed → c.failures = 0 →
      (recordApiResult (recordApiResult (recordApiResult c false t1) false t2) false t3).state =
        CBState.opened) ∧
    (c.state = CBState.opened → now - c.lastFailure < resetTimeout →
      checkCircuitBreaker c now = (false, c)) ∧
    (c.state = CBState.opened → resetTimeout ≤ now - c.lastFailure →
      (checkCircuitBreaker c now).1 = true ∧
      (checkCircuitBreaker c now).2.state = CBState.halfOpen ∧
      (checkCircuitBreaker c now).2.attempts = 0) ∧
    (c.state = CBState.halfOpen → (recordApiResult c true now).state = CBState.closed) ∧
    (c.state = CBState.halfOpen → halfOpenMaxAttempts ≤ c.attempts →
      checkCircuitBreaker c now = (false, { c with state := CBState.opened })) := by
  refine ⟨?_, ?_, ?_, ?_, ?_⟩
  · intro hs hf
    simp [recordApiResult, hs, hf, failureThreshold]
  · intro hs hlt
    simp [checkCircuitBreaker, hs, Nat.not_le.mpr hlt]
  · intro hs hle
    simp [checkCircuitBreaker, hs, hle, halfOpenMaxAttempts]
  · intro hs
    simp [recordApiResult, hs]
  · intro hs hle
    simp [checkCircuitBreaker, hs, hle]

/-- Witness for `circuit_breaker_transitions` at concrete breaker states. -/
theorem circuit_breaker_transitions_witness :
    ((recordApiResult (recordApiResult
        (recordApiResult ⟨0, 0, CBState.closed, 0⟩ false 10) false 20) false 30).state =
      CBState.opened) ∧
    (checkCircuitBreaker ⟨3, 100, CBState.opened, 0⟩ 1000 =
      (false, ⟨3, 100, CBState.opened, 0⟩)) ∧
    ((checkCircuitBreaker ⟨3, 0, CBState.opened, 0⟩ 300000).1 = true ∧
      (checkCircuitBreaker ⟨3, 0, CBState.opened, 0⟩ 300000).2.state = CBState.halfOpen ∧
      (checkCircuitBreaker ⟨3, 0, CBState.opened, 0⟩ 300000).2.attempts = 0) ∧
    ((recordApiResult ⟨3, 0, CBState.halfOpen, 0⟩ true 5).state = CBState.closed) ∧
    (checkCircuitBreaker ⟨4, 0, CBState.halfOpen, 2⟩ 7 =
      (false, ⟨4, 0, CBState.opened, 2⟩)) :=
  ⟨(circuit_breaker_transitions ⟨0, 0, CBState.closed, 0⟩ 10 20 30 0).1 rfl rfl,
   (circuit_breaker_transitions ⟨3, 100, CBState.opened, 0⟩ 0 0 0 1000).2.1 rfl (by decide),
   (circuit_breaker_transitions ⟨3, 0, CBState.opened, 0⟩ 0 0 0 300000).2.2.1 rfl (by decide),
   (circuit_breaker_transitions ⟨3, 0, CBState.halfOpen, 0⟩ 0 0 0 5).2.2.2.1 rfl,
   (circuit_breaker_transitions ⟨4, 0, CBState.halfOpen, 2⟩ 0 0 0 7).2.2.2.2 rfl (by decide)⟩

/-- Claim C5 counterexample: on the half-open to open transition taken by
`checkCircuitBreaker` when the attempt budget is exhausted, the attempts
counter keeps its value instead of resetting to 0. -/
theorem circuit_attempts_not_reset_counterexample :
    (⟨3, 0, CBState.halfOpen, 2⟩ : CircuitState).state = CBState.halfOpen ∧
    (checkCircuitBreaker ⟨3, 0, CBState.halfOpen, 2⟩ 0).2.state = CBState.opened ∧
    (checkCircuitBreaker ⟨3, 0, CBState.halfOpen, 2⟩ 0).2.attempts = 2 ∧
    (2 : Nat) ≠ 0 := by decide

/-- Claim C5 as amended: attempts resets to 0 when half-open is left via a
success (half-open to closed) and when half-open is entered (open to
half-open after the reset timeout); on the half-open to open transition taken
on an exhausted attempt budget the counter is not reset and keeps its
value. -/
theorem circuit_attempts_reset_amended (c : CircuitState) (now : Nat) :
    (c.state = CBState.halfOpen → (recordApiResult c true now).state = CBState.closed ∧
      (recordApiResult c true now).attempts = 0) ∧
    (c.state = CBState.opened → resetTimeout ≤ now - c.lastFailure →
      (checkCircuitBreaker c now).2.attempts = 0) ∧
    (c.state = CBState.halfOpen → halfOpenMaxAttempts ≤ c.attempts →
      (checkCircuitBreaker c now).2.state = CBState.opened ∧
      (checkCircuitBreaker c now).2.attempts = c.attempts) := by
  refine ⟨?_, ?_, ?_⟩
  · intro hs
    simp [recordApiResult, hs]
  · intro hs hle
    simp [checkCircuitBreaker, hs, hle, halfOpenMaxAttempts]
  · intro hs hle
    simp [checkCircuitBreaker, hs, hle]

/-- Witness for `circuit_attempts_reset_amended` at concrete breaker
states. -/
theorem circuit_attempts_reset_amended_witness :
    ((recordApiResult ⟨3, 0, CBState.halfOpen, 1⟩ true 5).state = CBState.closed ∧
      (recordApiResult ⟨3, 0, CBState.halfOpen, 1⟩ true 5).attempts = 0) ∧
    ((checkCircuitBreaker ⟨3, 0, CBState.opened, 1⟩ 300000).2.attempts = 0) ∧
    ((checkCircuitBreaker ⟨3, 0, CBState.halfOpen, 2⟩ 9).2.state = CBState.opened ∧
      (checkCircuitBreaker ⟨3, 0, CBState.halfOpen, 2⟩ 9).2.attempts = 2) :=
  ⟨(circuit_attempts_reset_amended ⟨3, 0, CBState.halfOpen, 1⟩ 5).1 rfl,
   (circuit_attempts_reset_amended ⟨3, 0, CBState.opened, 1⟩ 300000).2.1 rfl (by decide),
   (circuit_attempts_reset_amended ⟨3, 0, CBState.halfOpen, 2⟩ 9).2.2 rfl (by decide)⟩

/-- Claim C8: the position sizer is deterministic — two calls of
`calculatePositionSize` with identical configuration and identical inputs
return the identical size and adjustedRisk; no hidden randomness appears
anywhere in its arithmetic. -/
theorem position_sizer_deterministic (cfg : PositionSizeConfig) (p1 p2 : SizeParams)
    (h : p1 = p2) : calculatePositionSize cfg p1 = calculatePositionSize cfg p2 := by
  rw [h]

/-- Witness for `position_sizer_deterministic` at the spec's example inputs
(confidence 0.85, high-volatility regime, account value 10000). -/
theorem position_sizer_deterministic_witness :
    calculatePositionSize exampleSizeConfig exampleSizeParams =
      calculatePositionSize exampleSizeConfig exampleSizeParams :=
  position_sizer_deterministic exampleSizeConfig exampleSizeParams exampleSizeParams rfl

/-- Claim C7 counterexample: the whale group drops a low-confidence signal.
The signal has no open position for its symbol and the group is below the
per-strategy cap, yet the signal is removed because its confidence 0.5 is not
above the 0.7 whale threshold — so a signal IS dropped for low confidence. -/
theorem whale_low_confidence_dropped_counterexample :
    filterAndRankSignals [("whale", [whaleSignal])] [] = [("whale", [])] ∧
    whaleSignal.confidence < 7/10 ∧
    ([] : List String).contains whaleSignal.symbol = false ∧
    1 ≤ MAX_SIGNALS_PER_STRATEGY := by
  refine ⟨?_, by norm_num [whaleSignal], rfl, by norm_num [MAX_SIGNALS_PER_STRATEGY]⟩
  norm_num [filterAndRankSignals, filterGroup, whaleSignal]

/-- Claim C7 as amended: for every strategy group other than whale, the
filter clamps confidence up to the 0.10 floor instead of discarding
low-confidence signals — every kept signal has confidence at least 0.10, the
group keeps min(cap, survivors of the open-position filter) signals, and a
signal is removed only when its symbol has an open position or the
per-strategy cap cuts it; the whale group instead keeps exactly the signals
with confidence above 0.7. -/
theorem clampConfidence_floor (s : TradeSignal) : 1/10 ≤ (clampConfidence s).confidence := by
  unfold clampConfidence
  dsimp only
  split
  · assumption
  · exact le_refl _

theorem non_whale_groups_clamp_amended (strategy : String) (signals : List TradeSignal)
    (openPositions : List String) (hw : strategy ≠ "whale") :
    (∀ s ∈ filterGroup openPositions strategy signals, 1/10 ≤ s.confidence) ∧
    ((filterGroup openPositions strategy signals).length =
      min (if strategy = "social" ∨ strategy = "pump" then MAX_SIGNALS_PER_STRATEGY * 2
           else MAX_SIGNALS_PER_STRATEGY)
        ((signals.map clampConfidence).filter
          (fun s => !openPositions.contains s.symbol)).length) ∧
    (∀ s ∈ signals, openPositions.contains s.symbol = false →
      ((signals.map clampConfidence).filter
          (fun s => !openPositions.contains s.symbol)).length ≤
        (if strategy = "social" ∨ strategy = "pump" then MAX_SIGNALS_PER_STRATEGY * 2
         else MAX_SIGNALS_PER_STRATEGY) →
      clampConfidence s ∈ filterGroup openPositions strategy signals) := by
  simp only [filterGroup, if_neg hw]
  refine ⟨?_, ?_, ?_⟩
  · intro s hs
    have hs1 : s ∈ sortByScore ((signals.map clampConfidence).filter
        (fun s => !openPositions.contains s.symbol)) := List.mem_of_mem_take hs
    have hs2 : s ∈ (signals.map clampConfidence).filter
        (fun s => !openPositions.contains s.symbol) :=
      (List.mergeSort_perm _ _).mem_iff.mp hs1
    have hs3 : s ∈ signals.map clampConfidence := List.mem_of_mem_filter hs2
    obtain ⟨s0, _, rfl⟩ := List.mem_map.mp hs3
    exact clampConfidence_floor s0
  · rw [List.length_take]
    simp only [sortByScore]
    rw [(List.mergeSort_perm _ _).length_eq]
  · intro s hs hopen hlen
    have hmem : clampConfidence s ∈ (signals.map clampConfidence).filter
        (fun s => !openPositions.contains s.symbol) := by
      refine List.mem_filter.mpr ⟨List.mem_map_of_mem clampConfidence hs, ?_⟩
      show (!openPositions.contains s.symbol) = true
      rw [hopen]
      rfl
    have hsorted : clampConfidence s ∈ sortByScore ((signals.map clampConfidence).filter
        (fun s => !openPositions.contains s.symbol)) :=
      (List.mergeSort_perm _ _).mem_iff.mpr hmem
    have hall : (sortByScore ((signals.map clampConfidence).filter
        (fun s => !openPositions.contains s.symbol))).take
          (if strategy = "social" ∨ strategy = "pump" then MAX_SIGNALS_PER_STRATEGY * 2
           else MAX_SIGNALS_PER_STRATEGY) =
        sortByScore ((signals.map clampConfidence).filter
          (fun s => !openPositions.contains s.symbol)) := by
      refine List.take_of_length_le ?_
      simp only [sortByScore]
      rw [(List.mergeSort_perm _ _).length_eq]
      exact hlen
    rw [hall]
    exact hsorted

/-- Witness for `non_whale_groups_clamp_amended`: a trend-strategy signal
with no open position and an under-cap group survives the filter. -/
theorem non_whale_groups_clamp_amended_witness :
    clampConfidence exampleSignal ∈ filterGroup [] "trend" [exampleSignal] :=
  (non_whale_groups_clamp_amended "trend" [exampleSignal] [] (by decide)).2.2
    exampleSignal (List.mem_singleton.mpr rfl) rfl (by decide)

/-- Claim C2: the exit path records
`pnl = (currentPrice - entryPrice) * remainingQuantity * currentPrice`, an
extra factor of the exit price compared with the documented
`(exitPrice - entryPrice) * remainingQuantity`. At entry 100, exit 110 and
remaining quantity 2 the code records 2200 while the documented formula
gives 20. -/
theorem exit_pnl_formula_code_bug :
    (∀ (sym : String) (pos : Position) (price : ℚ) (reason : String) (stats : BotStats),
      (exitPositionStats sym pos price reason stats).2.pnl =
        (price - pos.entryPrice) * pos.remainingQuantity * price) ∧
    (exitPositionStats "SOL" examplePosition 110 "take_profit" exampleStats).2.pnl = 2200 ∧
    (exitPositionStats "SOL" examplePosition 110 "take_profit" exampleStats).1.totalPnL = 2200 ∧
    ((110 : ℚ) - examplePosition.entryPrice) * examplePosition.remainingQuantity = 20 ∧
    ((2200 : ℚ) ≠ 20) := by
  refine ⟨fun sym pos price reason stats => rfl, ?_, ?_, ?_, ?_⟩
  · norm_num [exitPositionStats, examplePosition, exampleStats]
  · norm_num [exitPositionStats, examplePosition, exampleStats]
  · norm_num [examplePosition]
  · norm_num

/-- Claim C3 counterexample: an exit sell that completes with status
`failed` still removes the position from the live table — the returned
status is never checked on the exit path, so "the symbol remains in the
table until a sell succeeds" is false. -/
theorem exit_failed_sell_removes_counterexample :
    (exitPositionRun [("SOL", examplePosition)] "SOL" examplePosition "stop_loss"
        (Except.ok 90) (Except.ok { status := SwapStatus.failed, amountOut := 0 })
        exampleStats).positions = [] ∧
    (exitPositionRun [("SOL", examplePosition)] "SOL" examplePosition "stop_loss"
        (Except.ok 90) (Except.ok { status := SwapStatus.failed, amountOut := 0 })
        exampleStats).removed = true ∧
    ({ status := SwapStatus.failed, amountOut := 0 } : SwapResult).status ≠
      SwapStatus.success := by
  refine ⟨?_, rfl, by decide⟩
  simp [exitPositionRun, exitPositionStats]

/-- Claim C3 as amended: when the exit price fetch or the exit sell throws,
the failure only reaches the catch block — the position is not removed from
the live table and no stats or record are written; the position is removed
exactly when both upstream calls return, regardless of the returned sell
status (a sell completing with status failed is not detected). -/
theorem exit_throw_keeps_position_amended (positions : List (String × Position))
    (symbol : String) (pos : Position) (reason : String) (pr : Except Unit ℚ)
    (so : Except Unit SwapResult) (stats : BotStats) :
    ((pr = Except.error () ∨ so = Except.error ()) →
      (exitPositionRun positions symbol pos reason pr so stats).positions = positions ∧
      (exitPositionRun positions symbol pos reason pr so stats).removed = false ∧
      (exitPositionRun positions symbol pos reason pr so stats).stats = stats ∧
      (exitPositionRun positions symbol pos reason pr so stats).record = none) ∧
    ((exitPositionRun positions symbol pos reason pr so stats).removed = true ↔
      pr ≠ Except.error () ∧ so ≠ Except.error ()) := by
  cases pr with
  | error e =>
    cases e
    simp [exitPositionRun]
  | ok price =>
    cases so with
    | error e =>
      cases e
      simp [exitPositionRun]
    | ok res =>
      simp [exitPositionRun]

/-- Witness for `exit_throw_keeps_position_amended`: a thrown price fetch
leaves the symbol in the table. -/
theorem exit_throw_keeps_position_amended_witness :
    (exitPositionRun [("SOL", examplePosition)] "SOL" examplePosition "stop_loss"
        (Except.error ()) (Except.ok { status := SwapStatus.success, amountOut := 180 })
        exampleStats).positions = [("SOL", examplePosition)] :=
  ((exit_throw_keeps_position_amended [("SOL", examplePosition)] "SOL" examplePosition
      "stop_loss" (Except.error ())
      (Except.ok { status := SwapStatus.success, amountOut := 180 }) exampleStats).1
    (Or.inl rfl)).1

/-- Claim C9: `evaluateSignal` grows the live position table only when the
entry swap returns status success — on a pre-existing position, an unsafe
liquidity analysis, a whale-distribution flag, a non-success swap status, or
a thrown upstream error, the state is returned unchanged; a successful swap
prepends exactly the freshly built position. -/
theorem evaluate_signal_entry_only_on_success (cfg : BotConfig) (st : BotState)
    (signal : TradeSignal) (env : EvalEnv) (now : Nat) :
    (evaluateSignal cfg st signal env now = st ∨
      ∃ r price, env.swap = Except.ok r ∧ r.status = SwapStatus.success ∧
        env.price = Except.ok price ∧
        (st.positions.lookup signal.symbol) = none ∧
        evaluateSignal cfg st signal env now =
          { st with positions :=
              (signal.symbol, newPosition cfg signal price r.amountOut now) ::
                st.positions }) ∧
    ((st.positions.lookup signal.symbol).isSome = true →
      evaluateSignal cfg st signal env now = st) ∧
    (∀ liq, env.liquidity = Except.ok liq → liq.isSafe = false →
      evaluateSignal cfg st signal env now = st) ∧
    (env.whaleDistribution = Except.ok true → evaluateSignal cfg st signal env now = st) ∧
    (∀ r, env.swap = Except.ok r → r.status ≠ SwapStatus.success →
      evaluateSignal cfg st signal env now = st) ∧
    ((env.liquidity = Except.error () ∨ env.whaleDistribution = Except.error () ∨
        env.price = Except.error () ∨ env.swap = Except.error ()) →
      evaluateSignal cfg st signal env now = st) := by
  obtain ⟨liquidity, whale, price, swap⟩ := env
  by_cases hlk : (st.positions.lookup signal.symbol).isSome = true
  · refine ⟨Or.inl ?_, fun _ => ?_, fun liq _ _ => ?_, fun _ => ?_, fun r _ _ => ?_, fun _ => ?_⟩ <;>
      simp [evaluateSignal, hlk]
  · have hnone : st.positions.lookup signal.symbol = none :=
      Option.not_isSome_iff_eq_none.mp (by simpa using hlk)
    cases liquidity with
    | error e =>
      cases e
      refine ⟨Or.inl ?_, ?_, ?_, ?_, ?_, ?_⟩ <;> simp [evaluateSignal, hnone]
    | ok liq =>
      cases whale with
      | error e =>
        cases e
        refine ⟨Or.inl ?_, ?_, ?_, ?_, ?_, ?_⟩ <;> simp [evaluateSignal, hnone]
      | ok whaleDist =>
        cases price with
        | error e =>
          cases e
          refine ⟨Or.inl ?_, ?_, ?_, ?_, ?_, ?_⟩ <;> simp [evaluateSignal, hnone]
        | ok p =>
          by_cases hsafe : liq.isSafe = false
          · refine ⟨Or.inl ?_, ?_, ?_, ?_, ?_, ?_⟩ <;> simp [evaluateSignal, hnone, hsafe]
          · by_cases hwd : whaleDist = true
            · refine ⟨Or.inl ?_, ?_, ?_, ?_, ?_, ?_⟩ <;>
                simp [evaluateSignal, hnone, hsafe, hwd]
            · cases swap with
              | error e =>
                cases e
                refine ⟨Or.inl ?_, ?_, ?_, ?_, ?_, ?_⟩ <;>
                  simp [evaluateSignal, hnone, hsafe, hwd]
              | ok r =>
                by_cases hst : r.status = SwapStatus.success
                · refine ⟨Or.inr ⟨r, p, rfl, hst, rfl, hnone, ?_⟩, ?_, ?_, ?_, ?_, ?_⟩ <;>
                    simp [evaluateSignal, hnone, hsafe, hwd, hst]
                · refine ⟨Or.inl ?_, ?_, ?_, ?_, ?_, ?_⟩ <;>
                    simp [evaluateSignal, hnone, hsafe, hwd, hst]

/-- Witness for `evaluate_signal_entry_only_on_success`: a swap that
completes with status failed leaves the table unchanged. -/
theorem evaluate_signal_entry_only_on_success_witness :
    evaluateSignal exampleBotConfig
        { positions := [], isRunning := true, shutdownRequested := false }
        exampleSignal failedSwapEnv 0 =
      { positions := [], isRunning := true, shutdownRequested := false } :=
  (evaluate_signal_entry_only_on_success exampleBotConfig
      { positions := [], isRunning := true, shutdownRequested := false }
      exampleSignal failedSwapEnv 0).2.2.2.2.1
    { status := SwapStatus.failed, amountOut := 0 } rfl (by decide)

theorem stopFold_events (env : String → ExitEnv) (l : List (String × Position)) :
    ∀ acc : List (String × Position) × BotStats × List StopEvent,
      (l.foldl (stopFold env) acc).2.2 =
        acc.2.2 ++ l.map (fun e => StopEvent.exitAttempt e.1 "bot_shutdown") := by
  induction l with
  | nil => intro acc; simp
  | cons e tl ih =>
    intro acc
    rw [List.foldl_cons, ih]
    simp [stopFold]

/-- Claim C6 counterexample: after `stop()` has set the shutdown flag, a
direct `evaluateSignal` call with a fresh symbol and a successful entry swap
still creates a position — `evaluateSignal` never consults
`shutdownRequested`, so the engine does not stop accepting new entries. -/
theorem shutdown_still_enters_counterexample :
    stoppedState.shutdownRequested = true ∧
    stoppedState.isRunning = false ∧
    ((evaluateSignal exampleBotConfig stoppedState exampleSignal
        successEvalEnv 0).positions.lookup "NEW").isSome = true := by
  refine ⟨rfl, rfl, ?_⟩
  simp [evaluateSignal, stoppedState, stop, exampleStats, exampleSignal, successEvalEnv,
    newPosition, exampleBotConfig]

/-- Claim C6 as amended: `stop()` sets the shutdown flag and clears the
running flag (which makes every monitoring loop wind down), attempts an exit
with reason bot_shutdown for every position open at shutdown, and writes the
stopped status only after all those exit attempts; however `evaluateSignal`
itself never checks the shutdown flag, so a direct call after `stop()` can
still create a position. -/
theorem stop_shutdown_amended (st : BotState) (stats : BotStats)
    (env : String → ExitEnv) :
    (stop st stats env).1.shutdownRequested = true ∧
    (stop st stats env).1.isRunning = false ∧
    (stop st stats env).2.2 =
      st.positions.map (fun e => StopEvent.exitAttempt e.1 "bot_shutdown") ++
        [StopEvent.reportStopped] ∧
    (∀ e ∈ st.positions,
      StopEvent.exitAttempt e.1 "bot_shutdown" ∈ (stop st stats env).2.2) := by
  have hev : (stop st stats env).2.2 =
      st.positions.map (fun e => StopEvent.exitAttempt e.1 "bot_shutdown") ++
        [StopEvent.reportStopped] := by
    show (st.positions.foldl (stopFold env) (st.positions, stats, [])).2.2 ++
        [StopEvent.reportStopped] = _
    rw [stopFold_events env st.positions (st.positions, stats, [])]
    simp
  refine ⟨rfl, rfl, hev, ?_⟩
  intro e he
  rw [hev]
  exact List.mem_append_left _ (List.mem_map_of_mem _ he)

/-- Witness for `stop_shutdown_amended`: stopping a bot holding one open
position emits a bot_shutdown exit attempt for it. -/
theorem stop_shutdown_amended_witness :
    StopEvent.exitAttempt "SOL" "bot_shutdown" ∈
      (stop { positions := [("SOL", examplePosition)], isRunning := true,
              shutdownRequested := false }
        exampleStats exampleExitEnv).2.2 :=
  (stop_shutdown_amended
      { positions := [("SOL", examplePosition)], isRunning := true,
        shutdownRequested := false }
      exampleStats exampleExitEnv).2.2.2 ("SOL", examplePosition)
    (List.mem_singleton.mpr rfl)

theorem applyTrailingUpdate_takeProfitLevels (c : ℚ) (p : Position) :
    (applyTrailingUpdate c p).takeProfitLevels = p.takeProfitLevels := by
  by_cases hA : p.trailingStop.active = true ∧ p.trailingStop.highestPrice < c <;>
    simp [applyTrailingUpdate, hA]

theorem applyTrailingUpdate_inactive (c : ℚ) (p : Position)
    (h : p.trailingStop.active = false) : applyTrailingUpdate c p = p := by
  simp [applyTrailingUpdate, h]

theorem tpPhase_level1_hit_preserved (c : ℚ) (p : Position)
    (h : p.takeProfitLevels.level1.hit = true) :
    (tpPhase c p).1.takeProfitLevels.level1.hit = true ∧
    (tpPhase c p).2.filter (fun x => decide (x.1 = SellTag.tp1)) = [] := by
  by_cases hB : p.takeProfitLevels.level2.hit = false ∧ p.takeProfitLevels.level2.price ≤ c <;>
    simp [tpPhase, hitLevel1, hitLevel2, h, hB]

theorem tpPhase_level2_hit_preserved (c : ℚ) (p : Position)
    (h : p.takeProfitLevels.level2.hit = true) :
    (tpPhase c p).1.takeProfitLevels.level2.hit = true ∧
    (tpPhase c p).2.filter (fun x => decide (x.1 = SellTag.tp2)) = [] := by
  by_cases hA : p.takeProfitLevels.level1.hit = false ∧ p.takeProfitLevels.level1.price ≤ c <;>
    simp [tpPhase, hitLevel1, hitLevel2, h, hA]

theorem tpPhase_fires1 (c : ℚ) (p : Position)
    (hh : p.takeProfitLevels.level1.hit = false)
    (hp : p.takeProfitLevels.level1.price ≤ c) :
    (tpPhase c p).2.filter (fun x => decide (x.1 = SellTag.tp1)) =
      [(SellTag.tp1, p.quantity * p.takeProfitLevels.level1.size)] ∧
    (tpPhase c p).1.takeProfitLevels.level1.hit = true := by
  by_cases hB : p.takeProfitLevels.level2.hit = false ∧ p.takeProfitLevels.level2.price ≤ c <;>
    simp [tpPhase, hitLevel1, hitLevel2, hh, hp, hB]

theorem tpPhase_fires2 (c : ℚ) (p : Position)
    (hh : p.takeProfitLevels.level2.hit = false)
    (hp : p.takeProfitLevels.level2.price ≤ c) :
    (tpPhase c p).2.filter (fun x => decide (x.1 = SellTag.tp2)) =
      [(SellTag.tp2, p.quantity * p.takeProfitLevels.level2.size)] ∧
    (tpPhase c p).1.takeProfitLevels.level2.hit = true ∧
    (tpPhase c p).1.trailingStop.active = true := by
  by_cases hA : p.takeProfitLevels.level1.hit = false ∧ p.takeProfitLevels.level1.price ≤ c <;>
    simp [tpPhase, hitLevel1, hitLevel2, hA, hh, hp]

theorem tpPhase_remaining (c : ℚ) (p : Position) :
    (tpPhase c p).1.remainingQuantity =
      p.remainingQuantity - ((tpPhase c p).2.map Prod.snd).sum := by
  by_cases hA : p.takeProfitLevels.level1.hit = false ∧ p.takeProfitLevels.level1.price ≤ c <;>
    by_cases hB : p.takeProfitLevels.level2.hit = false ∧ p.takeProfitLevels.level2.price ≤ c <;>
      simp [tpPhase, hitLevel1, hitLevel2, hA, hB] <;> ring

theorem tick_tp_branch (cfg : BotConfig) (t : TickData) (s1 s2 : SwapStatus) (pos : Position)
    (h1 : ¬(cfg.sidewaysProtection.maxHoldingTime < t.positionAge ∧
      |(t.currentPrice - pos.entryPrice) / pos.entryPrice * 100| <
        cfg.sidewaysProtection.minimumProgress))
    (h2 : ¬(cfg.sidewaysProtection.reallocateAfter < t.positionAge ∧
      t.rvolOneHourSideways < 1 - cfg.sidewaysProtection.volumeDeclineThreshold / 100 ∧
      t.priceRange < cfg.sidewaysProtection.priceRangeThreshold))
    (h3 : pos.trailingStop.active = false)
    (h4 : pos.stopLoss < t.currentPrice) :
    (updatePositionTick cfg t s1 s2 pos).position = (tpPhase t.currentPrice pos).1 ∧
    (updatePositionTick cfg t s1 s2 pos).sells = (tpPhase t.currentPrice pos).2 := by
  have hup : applyTrailingUpdate t.currentPrice pos = pos :=
    applyTrailingUpdate_inactive t.currentPrice pos h3
  by_cases hv : t.rvolOneHourExit < 1 - cfg.trading.volumeDecline / 100 <;>
    simp [updatePositionTick, h1, h2, h3, hup, not_le.mpr h4, hv]

theorem tick_level1_hit_preserved (cfg : BotConfig) (t : TickData) (s1 s2 : SwapStatus)
    (p : Position) (h : p.takeProfitLevels.level1.hit = true) :
    (updatePositionTick cfg t s1 s2 p).position.takeProfitLevels.level1.hit = true ∧
    (updatePositionTick cfg t s1 s2 p).sells.filter
      (fun x => decide (x.1 = SellTag.tp1)) = [] := by
  have hup : (applyTrailingUpdate t.currentPrice p).takeProfitLevels = p.takeProfitLevels :=
    applyTrailingUpdate_takeProfitLevels t.currentPrice p
  have htp := tpPhase_level1_hit_preserved t.currentPrice (applyTrailingUpdate t.currentPrice p)
    (by rw [hup]; exact h)
  unfold updatePositionTick
  split_ifs
  · exact ⟨h, rfl⟩
  · exact ⟨h, rfl⟩
  · exact ⟨h, rfl⟩
  · exact ⟨by rw [show (applyTrailingUpdate t.currentPrice p).takeProfitLevels.level1.hit =
        p.takeProfitLevels.level1.hit from by rw [hup]]; exact h, rfl⟩
  · exact ⟨by rw [show (applyTrailingUpdate t.currentPrice p).takeProfitLevels.level1.hit =
        p.takeProfitLevels.level1.hit from by rw [hup]]; exact h, rfl⟩
  · exact htp
  · exact htp

theorem tick_level2_hit_preserved (cfg : BotConfig) (t : TickData) (s1 s2 : SwapStatus)
    (p : Position) (h : p.takeProfitLevels.level2.hit = true) :
    (updatePositionTick cfg t s1 s2 p).position.takeProfitLevels.level2.hit = true ∧
    (updatePositionTick cfg t s1 s2 p).sells.filter
      (fun x => decide (x.1 = SellTag.tp2)) = [] := by
  have hup : (applyTrailingUpdate t.currentPrice p).takeProfitLevels = p.takeProfitLevels :=
    applyTrailingUpdate_takeProfitLevels t.currentPrice p
  have htp := tpPhase_level2_hit_preserved t.currentPrice (applyTrailingUpdate t.currentPrice p)
    (by rw [hup]; exact h)
  unfold updatePositionTick
  split_ifs
  · exact ⟨h, rfl⟩
  · exact ⟨h, rfl⟩
  · exact ⟨h, rfl⟩
  · exact ⟨by rw [show (applyTrailingUpdate t.currentPrice p).takeProfitLevels.level2.hit =
        p.takeProfitLevels.level2.hit from by rw [hup]]; exact h, rfl⟩
  · exact ⟨by rw [show (applyTrailingUpdate t.currentPrice p).takeProfitLevels.level2.hit =
        p.takeProfitLevels.level2.hit from by rw [hup]]; exact h, rfl⟩
  · exact htp
  · exact htp

/-- Claim C1: on a monitoring tick that reaches the take-profit checks (no
earlier exit trigger fires and the trailing stop is inactive), a tier whose
price is crossed and whose hit flag is false produces exactly one sell of
quantity times the tier size fraction and sets the flag; remainingQuantity
drops by exactly the amounts sold; any later tick on the resulting position
issues no further sell for that tier; and a set hit flag survives every
tick. -/
theorem take_profit_tier_fires_exactly_once (cfg : BotConfig) (t : TickData)
    (s1 s2 : SwapStatus) (pos : Position)
    (h1 : ¬(cfg.sidewaysProtection.maxHoldingTime < t.positionAge ∧
      |(t.currentPrice - pos.entryPrice) / pos.entryPrice * 100| <
        cfg.sidewaysProtection.minimumProgress))
    (h2 : ¬(cfg.sidewaysProtection.reallocateAfter < t.positionAge ∧
      t.rvolOneHourSideways < 1 - cfg.sidewaysProtection.volumeDeclineThreshold / 100 ∧
      t.priceRange < cfg.sidewaysProtection.priceRangeThreshold))
    (h3 : pos.trailingStop.active = false)
    (h4 : pos.stopLoss < t.currentPrice) :
    (pos.takeProfitLevels.level1.hit = false →
      pos.takeProfitLevels.level1.price ≤ t.currentPrice →
      (updatePositionTick cfg t s1 s2 pos).sells.filter
          (fun x => decide (x.1 = SellTag.tp1)) =
        [(SellTag.tp1, pos.quantity * pos.takeProfitLevels.level1.size)] ∧
      (updatePositionTick cfg t s1 s2 pos).position.takeProfitLevels.level1.hit = true ∧
      ∀ (cfg2 : BotConfig) (t2 : TickData) (s1b s2b : SwapStatus),
        (updatePositionTick cfg2 t2 s1b s2b
            (updatePositionTick cfg t s1 s2 pos).position).sells.filter
          (fun x => decide (x.1 = SellTag.tp1)) = []) ∧
    (pos.takeProfitLevels.level2.hit = false →
      pos.takeProfitLevels.level2.price ≤ t.currentPrice →
      (updatePositionTick cfg t s1 s2 pos).sells.filter
          (fun x => decide (x.1 = SellTag.tp2)) =
        [(SellTag.tp2, pos.quantity * pos.takeProfitLevels.level2.size)] ∧
      (updatePositionTick cfg t s1 s2 pos).position.takeProfitLevels.level2.hit = true ∧
      ∀ (cfg2 : BotConfig) (t2 : TickData) (s1b s2b : SwapStatus),
        (updatePositionTick cfg2 t2 s1b s2b
            (updatePositionTick cfg t s1 s2 pos).position).sells.filter
          (fun x => decide (x.1 = SellTag.tp2)) = []) ∧
    ((updatePositionTick cfg t s1 s2 pos).position.remainingQuantity =
      pos.remainingQuantity -
        (((updatePositionTick cfg t s1 s2 pos).sells.map Prod.snd).sum)) ∧
    (∀ (cfg2 : BotConfig) (t2 : TickData) (s1b s2b : SwapStatus) (p : Position),
      (p.takeProfitLevels.level1.hit = true →
        (updatePositionTick cfg2 t2 s1b s2b p).position.takeProfitLevels.level1.hit = true) ∧
      (p.takeProfitLevels.level2.hit = true →
        (updatePositionTick cfg2 t2 s1b s2b p).position.takeProfitLevels.level2.hit = true)) := by
  obtain ⟨hpos, hsells⟩ := tick_tp_branch cfg t s1 s2 pos h1 h2 h3 h4
  refine ⟨?_, ?_, ?_, ?_⟩
  · intro hh hp
    obtain ⟨hf1, hf2⟩ := tpPhase_fires1 t.currentPrice pos hh hp
    refine ⟨by rw [hsells]; exact hf1, by rw [hpos]; exact hf2, ?_⟩
    intro cfg2 t2 s1b s2b
    exact (tick_level1_hit_preserved cfg2 t2 s1b s2b _ (by rw [hpos]; exact hf2)).2
  · intro hh hp
    obtain ⟨hf1, hf2, _⟩ := tpPhase_fires2 t.currentPrice pos hh hp
    refine ⟨by rw [hsells]; exact hf1, by rw [hpos]; exact hf2, ?_⟩
    intro cfg2 t2 s1b s2b
    exact (tick_level2_hit_preserved cfg2 t2 s1b s2b _ (by rw [hpos]; exact hf2)).2
  · rw [hpos, hsells]
    exact tpPhase_remaining t.currentPrice pos
  · intro cfg2 t2 s1b s2b p
    exact ⟨fun h => (tick_level1_hit_preserved cfg2 t2 s1b s2b p h).1,
           fun h => (tick_level2_hit_preserved cfg2 t2 s1b s2b p h).1⟩

/-- Witness for `take_profit_tier_fires_exactly_once`: at price 131 the
first tier of the example position fires with a sell of 30 percent of the
quantity. -/
theorem take_profit_tier_fires_exactly_once_witness :
    (updatePositionTick exampleBotConfig exampleTickBoth SwapStatus.success SwapStatus.success
        examplePosition).sells.filter (fun x => decide (x.1 = SellTag.tp1)) =
      [(SellTag.tp1, examplePosition.quantity * examplePosition.takeProfitLevels.level1.size)] :=
  ((take_profit_tier_fires_exactly_once exampleBotConfig exampleTickBoth SwapStatus.success
      SwapStatus.success examplePosition (by decide) (by decide) rfl (by decide)).1
    rfl (by decide)).1

/-- Claim C10: the monitoring tick is independent of the statuses returned
by the tier sells — the source never inspects them — so a tier sell that
returns status failed still marks the tier hit and decrements
remainingQuantity by the sell amount. -/
theorem take_profit_ignores_sell_status (cfg : BotConfig) (t : TickData) (pos : Position)
    (h1 : ¬(cfg.sidewaysProtection.maxHoldingTime < t.positionAge ∧
      |(t.currentPrice - pos.entryPrice) / pos.entryPrice * 100| <
        cfg.sidewaysProtection.minimumProgress))
    (h2 : ¬(cfg.sidewaysProtection.reallocateAfter < t.positionAge ∧
      t.rvolOneHourSideways < 1 - cfg.sidewaysProtection.volumeDeclineThreshold / 100 ∧
      t.priceRange < cfg.sidewaysProtection.priceRangeThreshold))
    (h3 : pos.trailingStop.active = false)
    (h4 : pos.stopLoss < t.currentPrice) :
    (∀ s1 s2 s1b s2b : SwapStatus,
      updatePositionTick cfg t s1 s2 pos = updatePositionTick cfg t s1b s2b pos) ∧
    (pos.takeProfitLevels.level1.hit = false →
      pos.takeProfitLevels.level1.price ≤ t.currentPrice →
      (updatePositionTick cfg t SwapStatus.failed SwapStatus.failed
          pos).position.takeProfitLevels.level1.hit = true ∧
      (updatePositionTick cfg t SwapStatus.failed SwapStatus.failed pos).sells.filter
          (fun x => decide (x.1 = SellTag.tp1)) =
        [(SellTag.tp1, pos.quantity * pos.takeProfitLevels.level1.size)]) ∧
    (pos.takeProfitLevels.level2.hit = false →
      pos.takeProfitLevels.level2.price ≤ t.currentPrice →
      (updatePositionTick cfg t SwapStatus.failed SwapStatus.failed
          pos).position.takeProfitLevels.level2.hit = true ∧
      (updatePositionTick cfg t SwapStatus.failed SwapStatus.failed pos).sells.filter
          (fun x => decide (x.1 = SellTag.tp2)) =
        [(SellTag.tp2, pos.quantity * pos.takeProfitLevels.level2.size)]) ∧
    ((updatePositionTick cfg t SwapStatus.failed SwapStatus.failed
        pos).position.remainingQuantity =
      pos.remainingQuantity -
        (((updatePositionTick cfg t SwapStatus.failed SwapStatus.failed pos).sells.map
            Prod.snd).sum)) := by
  obtain ⟨hpos, hsells⟩ :=
    tick_tp_branch cfg t SwapStatus.failed SwapStatus.failed pos h1 h2 h3 h4
  refine ⟨fun s1 s2 s1b s2b => rfl, ?_, ?_, ?_⟩
  · intro hh hp
    obtain ⟨hf1, hf2⟩ := tpPhase_fires1 t.currentPrice pos hh hp
    exact ⟨by rw [hpos]; exact hf2, by rw [hsells]; exact hf1⟩
  · intro hh hp
    obtain ⟨hf1, hf2, _⟩ := tpPhase_fires2 t.currentPrice pos hh hp
    exact ⟨by rw [hpos]; exact hf2, by rw [hsells]; exact hf1⟩
  · rw [hpos, hsells]
    exact tpPhase_remaining t.currentPrice pos

/-- Witness for `take_profit_ignores_sell_status`: at price 116, with both
tier sells returning status failed, the first tier of the example position
is still marked hit. -/
theorem take_profit_ignores_sell_status_witness :
    (updatePositionTick exampleBotConfig exampleTick SwapStatus.failed SwapStatus.failed
        examplePosition).position.takeProfitLevels.level1.hit = true :=
  ((take_profit_ignores_sell_status exampleBotConfig exampleTick examplePosition
      (by decide) (by decide) rfl (by decide)).2.1 rfl (by decide)).1

end Crypto
